import Mathlib

/-!
Shallow embedding of the MicroSearch x402-gated search service.

Sources embedded here:
  * the x402 server-side payment helper module (configuration, challenge
    builder `buildPaymentRequired`, `send402`, `extractPaymentSignature`,
    facilitator client `verifyPayment` / `settlePayment`,
    `encodePaymentResponse`);
  * the search module (`stubResults`, `searchDuckDuckGo` at its observable
    interface, `executeSearch`);
  * the `GET /api/search` request handler.

Modelling conventions:
  * Environment variables are an explicit `Env` record of optional strings;
    the JavaScript `process.env.X || default` idiom (empty string is falsy)
    is `jsOr`.
  * The platform base64+JSON decode of the payment token
    (`JSON.parse(Buffer.from(sig, "base64").toString("utf-8"))`) is an
    explicit parameter `decode : String → Option String`: its only
    observable behaviour in this code base is success (yielding an opaque
    payload forwarded verbatim to the facilitator) or an exception, caught
    locally.  Every theorem below therefore holds for every such function,
    in particular for the platform one.
  * The facilitator and DuckDuckGo are external services; their behaviour
    for the (at most one) call per request is an explicit oracle value
    (`VerifyResp`, `SettleResp`, `FetchOutcome`).  Outbound network calls
    are recorded as explicit `FacCall` values / `Event` traces so that
    "no network call is made" is a provable statement.
  * Node lowercases inbound header names; `normalizeHeaders` models that
    normalization, and header lookup reads the normalized table.
-/

namespace MicroSearch

/-- JavaScript `x || d` for an optional/env string: `undefined` and the
empty string are falsy, anything else is kept. -/
def jsOr : Option String → String → String
  | some s, d => if s = "" then d else s
  | none, d => d

/-- JavaScript `s.trim()`: strip leading and trailing whitespace. -/
def jsTrim (s : String) : String :=
  String.mk (((s.toList.dropWhile Char.isWhitespace).reverse.dropWhile
    Char.isWhitespace).reverse)

/-- JavaScript `s.toLowerCase()` (ASCII range, which is all this code
base compares against). -/
def jsToLower (s : String) : String :=
  String.mk (s.toList.map Char.toLower)

/-- The environment variables this code base reads (all optional). -/
structure Env where
  facilitatorUrl : Option String := none
  payToAddress : Option String := none
  network : Option String := none
  assetAddress : Option String := none
  searchProvider : Option String := none
  erc8004Chain : Option String := none
  erc8004Contract : Option String := none
  erc8004TokenId : Option String := none
  erc8004ScanBaseUrl : Option String := none
deriving Repr

/-- `X402_FACILITATOR_URL || "https://www.x402.org/facilitator"`. -/
def FACILITATOR_URL (env : Env) : String :=
  jsOr env.facilitatorUrl "https://www.x402.org/facilitator"

/-- `X402_PAY_TO_ADDRESS || ""`. -/
def PAY_TO (env : Env) : String := jsOr env.payToAddress ""

/-- `X402_NETWORK || "eip155:84532"` (Base Sepolia). -/
def NETWORK (env : Env) : String := jsOr env.network "eip155:84532"

/-- `X402_ASSET_ADDRESS || <USDC on Base Sepolia>`. -/
def ASSET_ADDRESS (env : Env) : String :=
  jsOr env.assetAddress "0x036CbD53842c5426634e7929541eC2318f3dCF7e"

/-- `$0.002` in USDC base units (6 decimals): the constant `"2000"`. -/
def PRICE_UNITS : String := "2000"

/-- x402 v2 `PaymentRequirementsV2` (the `scheme` field is the literal
type `"exact"` in the source; here a string always set to `"exact"`).
`extra` is a record of string entries in insertion order. -/
structure PaymentRequirementsV2 where
  scheme : String
  network : String
  amount : String
  asset : String
  payTo : String
  maxTimeoutSeconds : Nat
  extra : List (String × String)
deriving Repr, DecidableEq

/-- x402 v2 `ResourceInfo`. -/
structure ResourceInfo where
  url : String
  description : Option String := none
  mimeType : Option String := none
deriving Repr, DecidableEq

/-- x402 v2 `PaymentRequiredV2` (the challenge). -/
structure PaymentRequiredV2 where
  x402Version : Nat
  resource : ResourceInfo
  accepts : List PaymentRequirementsV2
  error : Option String := none
deriving Repr, DecidableEq

/-- `SettlementResult` as returned by `settlePayment`. -/
structure SettlementResult where
  success : Bool
  transaction : Option String := none
  payer : Option String := none
  network : Option String := none
  errorReason : Option String := none
deriving Repr, DecidableEq

/-- `buildPaymentRequired(resource)`: the v2 payment requirements for a
given resource path, a pure function of configuration plus the path. -/
def buildPaymentRequired (env : Env) (resource : String) : PaymentRequiredV2 :=
  { x402Version := 2,
    resource :=
      { url := resource,
        description := some "Micropaid web search — $0.002 per query",
        mimeType := some "application/json" },
    accepts :=
      [{ scheme := "exact",
         network := NETWORK env,
         amount := PRICE_UNITS,
         asset := ASSET_ADDRESS env,
         payTo := PAY_TO env,
         maxTimeoutSeconds := 60,
         extra := [("name", "USD Coin"), ("version", "2")] }],
    error := none }

/-- JavaScript `paymentRequired.accepts[0]` (never out of bounds here:
`buildPaymentRequired` always produces a one-element `accepts`). -/
def acceptsHead (pr : PaymentRequiredV2) : PaymentRequirementsV2 :=
  pr.accepts.headD
    { scheme := "", network := "", amount := "", asset := "", payTo := "",
      maxTimeoutSeconds := 0, extra := [] }

/-! ### JSON serialization and base64, as `JSON.stringify` /
`Buffer.toString("base64")` produce them (fields in insertion order,
`undefined` fields omitted). -/

/-- Left brace as text. -/
def lbrace : String := "\x7b"

/-- Right brace as text. -/
def rbrace : String := "\x7d"

/-- Lowercase hex digit. -/
def hexDigit (n : Nat) : Char :=
  if n < 10 then Char.ofNat (48 + n) else Char.ofNat (87 + n)

/-- Uppercase hex digit. -/
def hexDigitUpper (n : Nat) : Char :=
  if n < 10 then Char.ofNat (48 + n) else Char.ofNat (55 + n)

/-- JSON string escaping of one character, as `JSON.stringify` does it. -/
def jsonEscapeChar (c : Char) : String :=
  if c = Char.ofNat 34 then "\\\""
  else if c = Char.ofNat 92 then "\\\\"
  else if c = Char.ofNat 8 then "\\b"
  else if c = Char.ofNat 9 then "\\t"
  else if c = Char.ofNat 10 then "\\n"
  else if c = Char.ofNat 12 then "\\f"
  else if c = Char.ofNat 13 then "\\r"
  else if c.toNat < 32 then
    "\\u00" ++ String.mk [hexDigit (c.toNat / 16), hexDigit (c.toNat % 16)]
  else String.singleton c

/-- A JSON string literal. -/
def jsonStr (s : String) : String :=
  "\"" ++ String.join (s.toList.map jsonEscapeChar) ++ "\""

/-- Comma-join. -/
def joinComma : List String → String
  | [] => ""
  | [x] => x
  | x :: xs => x ++ "," ++ joinComma xs

/-- Serialize the `extra` record. -/
def stringifyExtra (extra : List (String × String)) : String :=
  lbrace ++ joinComma (extra.map (fun p => jsonStr p.1 ++ ":" ++ jsonStr p.2)) ++ rbrace

/-- Serialize one `PaymentRequirementsV2` in insertion order. -/
def stringifyRequirement (r : PaymentRequirementsV2) : String :=
  lbrace ++ jsonStr "scheme" ++ ":" ++ jsonStr r.scheme
    ++ "," ++ jsonStr "network" ++ ":" ++ jsonStr r.network
    ++ "," ++ jsonStr "amount" ++ ":" ++ jsonStr r.amount
    ++ "," ++ jsonStr "asset" ++ ":" ++ jsonStr r.asset
    ++ "," ++ jsonStr "payTo" ++ ":" ++ jsonStr r.payTo
    ++ "," ++ jsonStr "maxTimeoutSeconds" ++ ":" ++ toString r.maxTimeoutSeconds
    ++ "," ++ jsonStr "extra" ++ ":" ++ stringifyExtra r.extra
    ++ rbrace

/-- Serialize a `ResourceInfo` (optional fields omitted when absent). -/
def stringifyResource (ri : ResourceInfo) : String :=
  lbrace ++ jsonStr "url" ++ ":" ++ jsonStr ri.url
    ++ (match ri.description with
        | some d => "," ++ jsonStr "description" ++ ":" ++ jsonStr d
        | none => "")
    ++ (match ri.mimeType with
        | some m => "," ++ jsonStr "mimeType" ++ ":" ++ jsonStr m
        | none => "")
    ++ rbrace

/-- Serialize a `PaymentRequiredV2` (the optional `error` omitted when
absent), as `JSON.stringify(paymentRequired)` would. -/
def stringifyPaymentRequired (pr : PaymentRequiredV2) : String :=
  lbrace ++ jsonStr "x402Version" ++ ":" ++ toString pr.x402Version
    ++ "," ++ jsonStr "resource" ++ ":" ++ stringifyResource pr.resource
    ++ "," ++ jsonStr "accepts" ++ ":[" ++ joinComma (pr.accepts.map stringifyRequirement) ++ "]"
    ++ (match pr.error with
        | some e => "," ++ jsonStr "error" ++ ":" ++ jsonStr e
        | none => "")
    ++ rbrace

/-- Serialize a `SettlementResult` (optional fields omitted when absent;
field order follows the declared interface). -/
def stringifySettlement (s : SettlementResult) : String :=
  lbrace ++ jsonStr "success" ++ ":" ++ (if s.success then "true" else "false")
    ++ (match s.transaction with
        | some t => "," ++ jsonStr "transaction" ++ ":" ++ jsonStr t
        | none => "")
    ++ (match s.payer with
        | some p => "," ++ jsonStr "payer" ++ ":" ++ jsonStr p
        | none => "")
    ++ (match s.network with
        | some n => "," ++ jsonStr "network" ++ ":" ++ jsonStr n
        | none => "")
    ++ (match s.errorReason with
        | some e => "," ++ jsonStr "errorReason" ++ ":" ++ jsonStr e
        | none => "")
    ++ rbrace

/-- One base64 alphabet character for a 6-bit value. -/
def b64Char (n : Nat) : Char :=
  if n < 26 then Char.ofNat (65 + n)
  else if n < 52 then Char.ofNat (97 + (n - 26))
  else if n < 62 then Char.ofNat (48 + (n - 52))
  else if n = 62 then Char.ofNat 43
  else Char.ofNat 47

/-- Standard base64 of a byte list, with `=` padding. -/
def b64Groups : List Nat → List Char
  | [] => []
  | [a] => [b64Char (a / 4), b64Char (a % 4 * 16), Char.ofNat 61, Char.ofNat 61]
  | [a, b] =>
    [b64Char (a / 4), b64Char (a % 4 * 16 + b / 16), b64Char (b % 16 * 4), Char.ofNat 61]
  | a :: b :: c :: rest =>
    b64Char (a / 4) :: b64Char (a % 4 * 16 + b / 16) :: b64Char (b % 16 * 4 + c / 64)
      :: b64Char (c % 64) :: b64Groups rest

/-- `Buffer.from(s).toString("base64")`: base64 of the UTF-8 bytes. -/
def base64Encode (s : String) : String :=
  String.mk (b64Groups (s.toUTF8.toList.map (fun b => b.toNat)))

/-- `encodePaymentResponse(settlement)`: base64 of the JSON settlement. -/
def encodePaymentResponse (settlement : SettlementResult) : String :=
  base64Encode (stringifySettlement settlement)

/-! ### Requests, responses, header extraction -/

/-- The inbound request as the handler observes it: HTTP method, the `q`
query parameter (`none` when absent or not a single string — the source
checks `typeof q === "string"`), and the raw header list as sent. -/
structure Request where
  method : String
  q : Option String := none
  headers : List (String × String) := []
deriving Repr, DecidableEq

/-- Node lowercases inbound header names before the handler sees them. -/
def normalizeHeaders (hs : List (String × String)) : List (String × String) :=
  hs.map (fun p => (jsToLower p.1, p.2))

/-- `req.headers[name]` for an already-lowercase `name`: lookup in the
normalized header table (first match). -/
def getHeader (req : Request) (name : String) : Option String :=
  ((normalizeHeaders req.headers).find? (fun p => p.1 == name)).map (fun p => p.2)

/-- `typeof v === "string" && v.length > 0 ? v : nothing`. -/
def nonEmptyHeader : Option String → Option String
  | some s => if s.length > 0 then some s else none
  | none => none

/-- `extractPaymentSignature(req)`: the v2 `payment-signature` header if
present and non-empty, else the v1 `x-payment` header if present and
non-empty, else `null`. -/
def extractPaymentSignature (req : Request) : Option String :=
  match nonEmptyHeader (getHeader req "payment-signature") with
  | some sig => some sig
  | none => nonEmptyHeader (getHeader req "x-payment")

/-! ### Search results and response bodies -/

/-- A single search result. -/
structure SearchResult where
  title : String
  url : String
  snippet : String
deriving Repr, DecidableEq

/-- `SearchResponse`: results plus provenance tag (`"duckduckgo"`,
`"stub"` or `"fallback_stub"`). -/
structure SearchResponse where
  results : List SearchResult
  search_mode : String
deriving Repr, DecidableEq

/-- `AgentIdentity` as declared by the identity module (the `standard`
field is the literal type `"ERC-8004"` in the source; here a string
always set to `"ERC-8004"`). -/
structure AgentIdentity where
  standard : String
  chain : String
  contract : String
  tokenId : String
  profileUrl : String
deriving Repr, DecidableEq

/-- `getAgentIdentity()`: the read-only ERC-8004 identity reference,
derived from configuration with documented defaults; `profileUrl` is the
interpolation `scanBase/agents/chain/contract/tokenId`. -/
def getAgentIdentity (env : Env) : AgentIdentity :=
  let chain := jsOr env.erc8004Chain "base"
  let contract := jsOr env.erc8004Contract "0x8004A169FB4a3325136EB29fA0ceB6D2e539a432"
  let tokenId := jsOr env.erc8004TokenId "1"
  let scanBase := jsOr env.erc8004ScanBaseUrl "https://www.8004scan.io"
  { standard := "ERC-8004",
    chain := chain,
    contract := contract,
    tokenId := tokenId,
    profileUrl := scanBase ++ "/agents/" ++ chain ++ "/" ++ contract ++ "/" ++ tokenId }

/-- The fixed pricing descriptor of the 200 body. -/
structure Pricing where
  currency : String
  amount : String
  unit : String
deriving Repr, DecidableEq

/-- The optional `payment` sub-object of the 200 body. -/
structure PaymentField where
  transaction : String
  payer : Option String
deriving Repr, DecidableEq

/-- The 200 body assembled by the handler. -/
structure SearchOkBody where
  query : String
  results : List SearchResult
  pricing : Pricing
  provider : String
  search_mode : String
  agent_identity : AgentIdentity
  payment : Option PaymentField
deriving Repr, DecidableEq

/-- The three JSON body shapes this handler produces. -/
inductive ResponseBody where
  | errorMsg (msg : String)
  | challenge (pr : PaymentRequiredV2)
  | searchOk (payload : SearchOkBody)
deriving Repr, DecidableEq

/-- An HTTP response: status, headers set via `setHeader`, JSON body. -/
structure Response where
  status : Nat
  headers : List (String × String)
  body : ResponseBody
deriving Repr, DecidableEq

/-- Whether a response carries a header of the given name. -/
def Response.hasHeader (r : Response) (name : String) : Bool :=
  r.headers.any (fun p => p.1 == name)

/-- The `payment` sub-object of a 200 body, if any. -/
def Response.paymentField (r : Response) : Option PaymentField :=
  match r.body with
  | .searchOk p => p.payment
  | _ => none

/-- The result list of a 200 body, if any. -/
def Response.resultsOf (r : Response) : Option (List SearchResult) :=
  match r.body with
  | .searchOk p => some p.results
  | _ => none

/-- `send402(res, resource)`: the 402 response — `PAYMENT-REQUIRED` header
holding base64 of the JSON challenge, `WWW-Authenticate` naming the
facilitator, body the challenge spread with the fixed `error` message. -/
def send402Response (env : Env) (resource : String) : Response :=
  { status := 402,
    headers :=
      [("PAYMENT-REQUIRED", base64Encode (stringifyPaymentRequired (buildPaymentRequired env resource))),
       ("WWW-Authenticate", "x402 facilitator=\"" ++ FACILITATOR_URL env ++ "\"")],
    body := ResponseBody.challenge
      { buildPaymentRequired env resource with
        error := some "Payment required. Include PAYMENT-SIGNATURE header with a valid x402 payment." } }

/-! ### Facilitator client -/

/-- One outbound POST to the facilitator, as the source assembles it:
target URL, the decoded `paymentPayload`, the `paymentRequirements`
object, and the timeout passed to `AbortSignal.timeout`. -/
structure FacCall where
  url : String
  paymentPayload : String
  paymentRequirements : PaymentRequirementsV2
  timeoutMs : Nat
deriving Repr, DecidableEq

/-- The facilitator's behaviour for the (single) verify fetch: the fetch
throws (network error or timeout abort), returns a non-ok status (whose
body text is captured), returns ok but with a body whose JSON parse
throws, or returns ok JSON `{isValid, payer?, invalidReason?}`. -/
inductive VerifyResp where
  | fetchError (msg : String)
  | httpError (status : Nat) (text : String)
  | badJson (msg : String)
  | ok (isValid : Bool) (payer : Option String) (invalidReason : Option String)
deriving Repr, DecidableEq

/-- The facilitator's behaviour for the (single) settle fetch. -/
inductive SettleResp where
  | fetchError (msg : String)
  | httpError (status : Nat) (text : String)
  | badJson (msg : String)
  | ok (result : SettlementResult)
deriving Repr, DecidableEq

/-- The outcome of `verifyPayment`. -/
structure VerifyOutcome where
  valid : Bool
  payer : Option String := none
  error : Option String := none
deriving Repr, DecidableEq

/-- The verify call the source builds once the token decoded. -/
def vCall (env : Env) (payload resource : String) : FacCall :=
  { url := FACILITATOR_URL env ++ "/verify",
    paymentPayload := payload,
    paymentRequirements := acceptsHead (buildPaymentRequired env resource),
    timeoutMs := 15000 }

/-- The settle call the source builds once the token decoded. -/
def sCall (env : Env) (payload resource : String) : FacCall :=
  { url := FACILITATOR_URL env ++ "/settle",
    paymentPayload := payload,
    paymentRequirements := acceptsHead (buildPaymentRequired env resource),
    timeoutMs := 30000 }

/-- `verifyPayment(paymentSignature, resource)`; also returns the list of
outbound facilitator calls made (empty or a singleton). -/
def verifyPayment (env : Env) (decode : String → Option String) (fres : VerifyResp)
    (paymentSignature resource : String) : VerifyOutcome × List FacCall :=
  match decode paymentSignature with
  | none => ({ valid := false, error := some "Invalid payment signature encoding" }, [])
  | some paymentPayload =>
    let call := vCall env paymentPayload resource
    match fres with
    | .fetchError msg =>
      ({ valid := false, error := some ("Facilitator unreachable: " ++ msg) }, [call])
    | .httpError status text =>
      ({ valid := false,
         error := some ("Facilitator verify returned " ++ toString status ++ ": " ++ text) }, [call])
    | .badJson msg =>
      ({ valid := false, error := some ("Facilitator unreachable: " ++ msg) }, [call])
    | .ok isValid payer invalidReason =>
      if isValid = false then
        ({ valid := false, error := some (jsOr invalidReason "Payment verification failed") }, [call])
      else
        ({ valid := true, payer := payer }, [call])

/-- `settlePayment(paymentSignature, resource)`; on transport success the
facilitator's JSON body is forwarded unmodified as the result. -/
def settlePayment (env : Env) (decode : String → Option String) (sres : SettleResp)
    (paymentSignature resource : String) : SettlementResult × List FacCall :=
  match decode paymentSignature with
  | none => ({ success := false, errorReason := some "Invalid payment signature encoding" }, [])
  | some paymentPayload =>
    let call := sCall env paymentPayload resource
    match sres with
    | .fetchError msg =>
      ({ success := false, errorReason := some ("Facilitator unreachable: " ++ msg) }, [call])
    | .httpError status text =>
      ({ success := false,
         errorReason := some ("Facilitator settle returned " ++ toString status ++ ": " ++ text) }, [call])
    | .badJson msg =>
      ({ success := false, errorReason := some ("Facilitator unreachable: " ++ msg) }, [call])
    | .ok result => (result, [call])

/-! ### Search -/

/-- Characters `encodeURIComponent` leaves unescaped. -/
def isUriUnreserved (c : Char) : Bool :=
  c.isAlphanum || c = Char.ofNat 45 || c = Char.ofNat 95 || c = Char.ofNat 46
    || c = Char.ofNat 33 || c = Char.ofNat 126 || c = Char.ofNat 42
    || c = Char.ofNat 39 || c = Char.ofNat 40 || c = Char.ofNat 41

/-- `%XX` for one byte. -/
def pctByte (b : Nat) : String :=
  "%" ++ String.mk [hexDigitUpper (b / 16), hexDigitUpper (b % 16)]

/-- JavaScript `encodeURIComponent`. -/
def encodeURIComponent (s : String) : String :=
  String.join (s.toList.map (fun c =>
    if isUriUnreserved c then String.singleton c
    else String.join (((String.singleton c).toUTF8.toList.map (fun b => b.toNat)).map pctByte)))

/-- `stubResults(query)`: five deterministic synthetic results, a pure
function of the query string. -/
def stubResults (query : String) : List SearchResult :=
  [{ title := query ++ " — Wikipedia",
     url := "https://en.wikipedia.org/wiki/" ++ encodeURIComponent query,
     snippet := "Comprehensive overview of " ++ query ++ " from the free encyclopedia." },
   { title := query ++ " — Latest News",
     url := "https://news.ycombinator.com/item?id=00000",
     snippet := "Discussion and latest developments about " ++ query ++ " on Hacker News." },
   { title := "Understanding " ++ query ++ " — A Beginner\x27s Guide",
     url := "https://example.com/guide/" ++ encodeURIComponent query,
     snippet := "Learn everything you need to know about " ++ query ++ " in this guide." },
   { title := query ++ " | Research Papers",
     url := "https://scholar.google.com/scholar?q=" ++ encodeURIComponent query,
     snippet := "Academic papers and citations related to " ++ query ++ "." },
   { title := query ++ " — Reddit Discussion",
     url := "https://www.reddit.com/search/?q=" ++ encodeURIComponent query,
     snippet := "Community discussion and opinions about " ++ query ++ "." }]

/-- The outcome of the DuckDuckGo HTML fetch: the fetch throws (network
error or the 8s timeout abort), or yields a response with ok flag, status
and HTML body. -/
inductive FetchOutcome where
  | fetchError (msg : String)
  | response (ok : Bool) (status : Nat) (html : String)
deriving Repr, DecidableEq

/-- `searchDuckDuckGo(query)` at its observable interface: throws on fetch
failure or non-ok status, otherwise applies the HTML result parser (the
regex block of the source, abstracted as `parse`) to the body. -/
def searchDuckDuckGo (parse : String → List SearchResult) (f : FetchOutcome) :
    Except String (List SearchResult) :=
  match f with
  | .fetchError msg => .error msg
  | .response ok status html =>
    if ok = false then .error ("DuckDuckGo returned HTTP " ++ toString status)
    else .ok (parse html)

/-- `executeSearch(query)`: stub mode returns the deterministic fake
results; DuckDuckGo mode attempts the real search and falls back to the
stub on any failure, including zero parsed results. -/
def executeSearch (env : Env) (parse : String → List SearchResult) (f : FetchOutcome)
    (query : String) : SearchResponse :=
  let provider := jsToLower (jsOr env.searchProvider "duckduckgo")
  if provider = "stub" then
    { results := stubResults query, search_mode := "stub" }
  else
    match searchDuckDuckGo parse f with
    | .error _ => { results := stubResults query, search_mode := "fallback_stub" }
    | .ok results =>
      if results.length = 0 then
        { results := stubResults query, search_mode := "fallback_stub" }
      else
        { results := results, search_mode := "duckduckgo" }

/-! ### The request handler -/

/-- The per-request behaviour of everything outside this process: the
platform token decode, the facilitator's verify/settle responses, and the
DuckDuckGo fetch outcome and HTML parser. -/
structure World where
  decode : String → Option String
  verifyResp : VerifyResp
  settleResp : SettleResp
  parse : String → List SearchResult
  searchFetch : FetchOutcome

/-- Externally visible effects of one request, in order. -/
inductive Event where
  | facVerify (c : FacCall)
  | searchExec (query : String)
  | facSettle (c : FacCall)
deriving Repr, DecidableEq

/-- Whether an event is a search execution. -/
def isSearchEvent : Event → Bool
  | .searchExec _ => true
  | _ => false

/-- Whether an event is a settlement attempt. -/
def isSettleEvent : Event → Bool
  | .facSettle _ => true
  | _ => false

/-- The resource path constant of the handler module. -/
def RESOURCE : String := "/api/search"

/-- `typeof req.query.q === "string" ? req.query.q.trim() : ""`. -/
def queryOf (req : Request) : String :=
  match req.q with
  | some s => jsTrim s
  | none => ""

/-- The `GET /api/search` handler, returning the response together with
the ordered trace of external effects. -/
def handler (env : Env) (w : World) (req : Request) : Response × List Event :=
  if req.method ≠ "GET" then
    ({ status := 405, headers := [], body := .errorMsg "Method not allowed" }, [])
  else if queryOf req = "" then
    ({ status := 400, headers := [], body := .errorMsg "Missing required query parameter: q" }, [])
  else
    match extractPaymentSignature req with
    | none => (send402Response env RESOURCE, [])
    | some paymentSig =>
      let verification := verifyPayment env w.decode w.verifyResp paymentSig RESOURCE
      if verification.1.valid = false then
        (send402Response env RESOURCE, verification.2.map Event.facVerify)
      else
        let sr := executeSearch env w.parse w.searchFetch (queryOf req)
        let settlement := settlePayment env w.decode w.settleResp paymentSig RESOURCE
        ({ status := 200,
           headers :=
             if settlement.1.success then
               [("PAYMENT-RESPONSE", encodePaymentResponse settlement.1)]
             else [],
           body := ResponseBody.searchOk
             { query := queryOf req,
               results := sr.results,
               pricing := { currency := "USDC", amount := "0.002", unit := "per_request" },
               provider := "micropaid-search-api",
               search_mode := sr.search_mode,
               agent_identity := getAgentIdentity env,
               payment :=
                 match settlement.1.transaction with
                 | some t =>
                   if t = "" then none
                   else some { transaction := t, payer := settlement.1.payer }
                 | none => none } },
         verification.2.map Event.facVerify ++ [Event.searchExec (queryOf req)]
           ++ settlement.2.map Event.facSettle)


/-! ### Concrete fixtures used by witnesses and counterexamples -/

/-- An environment with no variables set (all documented defaults). -/
def envX : Env := {}

/-- A world whose facilitator verifies the token as valid and whose settle
call reports `success: false` while still carrying a transaction id. -/
def wSettleFailTx : World where
  decode := fun _ => some "payload"
  verifyResp := .ok true (some "0xABC") none
  settleResp := .ok { success := false, transaction := some "0xT1",
                      payer := some "0xABC", errorReason := some "insufficient funds" }
  parse := fun _ => []
  searchFetch := .fetchError "net down"

/-- A world whose facilitator rejects the token as expired. -/
def wVerifyInvalid : World where
  decode := fun _ => some "payload"
  verifyResp := .ok false none (some "expired")
  settleResp := .ok { success := true, transaction := some "0xT1" }
  parse := fun _ => []
  searchFetch := .fetchError "net down"

/-- A world whose facilitator settle call fails without a transaction id
(facilitator unreachable). -/
def wSettleUnreachable : World where
  decode := fun _ => some "payload"
  verifyResp := .ok true (some "0xABC") none
  settleResp := .fetchError "connect ECONNREFUSED"
  parse := fun _ => []
  searchFetch := .fetchError "net down"

/-- A paid GET request for `bitcoin`. -/
def reqX : Request :=
  { method := "GET", q := some "bitcoin", headers := [("payment-signature", "tok")] }

/-- An unpaid GET request for `bitcoin` (no payment headers at all). -/
def reqNoTok : Request :=
  { method := "GET", q := some "bitcoin", headers := [] }

/-- A POST request. -/
def reqPost : Request :=
  { method := "POST", q := some "bitcoin", headers := [("payment-signature", "tok")] }


/-! ### Helper lemmas -/

/-- A non-empty string has positive length. -/
theorem string_length_pos_of_ne {v : String} (h : v ≠ "") : v.length > 0 := by
  cases v with
  | mk data =>
    cases data with
    | nil => exact absurd rfl h
    | cons c cs => simp [String.length]

/-- If the token decodes, `verifyPayment` makes exactly the single verify
call, whatever the facilitator answers. -/
theorem verifyPayment_calls_of_decode {env : Env} {decode : String → Option String}
    {fres : VerifyResp} {sig resource payload : String} (h : decode sig = some payload) :
    (verifyPayment env decode fres sig resource).2 = [vCall env payload resource] := by
  unfold verifyPayment
  rw [h]
  cases fres with
  | fetchError msg => rfl
  | httpError status text => rfl
  | badJson msg => rfl
  | ok isValid payer invalidReason => cases isValid <;> rfl

/-- If the token decodes, `settlePayment` makes exactly the single settle
call, whatever the facilitator answers. -/
theorem settlePayment_calls_of_decode {env : Env} {decode : String → Option String}
    {sres : SettleResp} {sig resource payload : String} (h : decode sig = some payload) :
    (settlePayment env decode sres sig resource).2 = [sCall env payload resource] := by
  unfold settlePayment
  rw [h]
  cases sres <;> rfl

/-- A positive verification outcome implies the token decoded. -/
theorem verifyPayment_valid_decode {env : Env} {decode : String → Option String}
    {fres : VerifyResp} {sig resource : String}
    (h : (verifyPayment env decode fres sig resource).1.valid = true) :
    ∃ payload, decode sig = some payload := by
  cases hd : decode sig with
  | none =>
    exfalso
    unfold verifyPayment at h
    rw [hd] at h
    simp at h
  | some p => exact ⟨p, rfl⟩

/-- If both payment header slots are missing, extraction yields nothing. -/
theorem extract_none_of_absent {req : Request}
    (h1 : getHeader req "payment-signature" = none)
    (h2 : getHeader req "x-payment" = none) :
    extractPaymentSignature req = none := by
  simp [extractPaymentSignature, nonEmptyHeader, h1, h2]

/-- Case analysis on the handler: its effect trace is empty, one verify
call, or exactly verify–execute–settle with a 200 result response. -/
theorem handler_shape (env : Env) (w : World) (req : Request) :
    (handler env w req).2 = []
    ∨ (∃ cv, (handler env w req).2 = [Event.facVerify cv])
    ∨ (∃ sig cv cs,
        extractPaymentSignature req = some sig
        ∧ (verifyPayment env w.decode w.verifyResp sig RESOURCE).1.valid = true
        ∧ (handler env w req).2
            = [Event.facVerify cv, Event.searchExec (queryOf req), Event.facSettle cs]
        ∧ (handler env w req).1.status = 200
        ∧ (handler env w req).1.resultsOf
            = some (executeSearch env w.parse w.searchFetch (queryOf req)).results) := by
  by_cases hm : req.method = "GET"
  · by_cases hq : queryOf req = ""
    · left
      simp [handler, hm, hq]
    · cases hx : extractPaymentSignature req with
      | none =>
        left
        simp [handler, hm, hq, hx]
      | some sig =>
        by_cases hv : (verifyPayment env w.decode w.verifyResp sig RESOURCE).1.valid = false
        · cases hd : w.decode sig with
          | none =>
            left
            simp [handler, hm, hq, hx, hv, verifyPayment, hd]
          | some payload =>
            right; left
            refine ⟨vCall env payload RESOURCE, ?_⟩
            simp [handler, hm, hq, hx, hv, verifyPayment_calls_of_decode hd]
        · have hv' : (verifyPayment env w.decode w.verifyResp sig RESOURCE).1.valid = true := by
            revert hv
            cases (verifyPayment env w.decode w.verifyResp sig RESOURCE).1.valid <;> simp
          obtain ⟨payload, hd⟩ := verifyPayment_valid_decode hv'
          right; right
          refine ⟨sig, vCall env payload RESOURCE, sCall env payload RESOURCE, rfl, hv', ?_, ?_, ?_⟩
          · simp [handler, hm, hq, hx, hv',
              verifyPayment_calls_of_decode hd, settlePayment_calls_of_decode hd]
          · simp [handler, hm, hq, hx, hv']
          · simp [handler, hm, hq, hx, hv', Response.resultsOf]
  · left
    simp [handler, hm]

/-! ### Claim theorems -/

/-- C1: For every request, the metered search is executed at most once,
and only after the verification outcome is valid; settlement is attempted
at most once, only after execution has completed, and its success or
failure never blocks the result response. -/
theorem c1_execute_once_settle_once (env : Env) (w : World) (req : Request) :
    ((handler env w req).2.countP isSearchEvent ≤ 1)
    ∧ ((handler env w req).2.countP isSettleEvent ≤ 1)
    ∧ (∀ q, Event.searchExec q ∈ (handler env w req).2 →
        ∃ sig, extractPaymentSignature req = some sig
          ∧ (verifyPayment env w.decode w.verifyResp sig RESOURCE).1.valid = true)
    ∧ (∀ c, Event.facSettle c ∈ (handler env w req).2 →
        ∃ cv q, (handler env w req).2
            = [Event.facVerify cv, Event.searchExec q, Event.facSettle c])
    ∧ (∀ q, Event.searchExec q ∈ (handler env w req).2 →
        (handler env w req).1.status = 200
        ∧ (handler env w req).1.resultsOf
            = some (executeSearch env w.parse w.searchFetch (queryOf req)).results) := by
  rcases handler_shape env w req with h | ⟨cv, h⟩ | ⟨sig, cv, cs, hx, hv, h, hst, hres⟩
  · rw [h]
    exact ⟨by simp, by simp, by simp, by simp, by simp⟩
  · rw [h]
    refine ⟨by simp [isSearchEvent], by simp [isSettleEvent], ?_, ?_, ?_⟩
    · intro q hq
      simp at hq
    · intro c hc
      simp at hc
    · intro q hq
      simp at hq
  · refine ⟨?_, ?_, ?_, ?_, ?_⟩
    · rw [h]
      simp [List.countP_cons, isSearchEvent]
    · rw [h]
      simp [List.countP_cons, isSettleEvent]
    · intro q hq
      exact ⟨sig, hx, hv⟩
    · intro c hc
      rw [h] at hc
      simp at hc
      subst hc
      exact ⟨cv, queryOf req, h⟩
    · intro q hq
      exact ⟨hst, hres⟩

/-- C1 witness: on a concrete paid request the search event occurs and the
response is the 200 result response. -/
theorem c1_execute_once_settle_once_witness :
    Event.searchExec "bitcoin" ∈ (handler envX wSettleFailTx reqX).2
    ∧ (handler envX wSettleFailTx reqX).1.status = 200 := by
  have hmem : Event.searchExec "bitcoin" ∈ (handler envX wSettleFailTx reqX).2 := by decide
  exact ⟨hmem, ((c1_execute_once_settle_once envX wSettleFailTx reqX).2.2.2.2 "bitcoin" hmem).1⟩

/-- C2: whenever a token is present but verification is negative (for any
cause), the handler responds with the freshly rebuilt 402 challenge, equal
to the unpaid-path response for the same resource; the response does not
depend on the failure cause. -/
theorem c2_invalid_token_fresh_challenge (env : Env) (w : World) (req : Request) (sig : String)
    (hm : req.method = "GET") (hq : queryOf req ≠ "")
    (hx : extractPaymentSignature req = some sig)
    (hv : (verifyPayment env w.decode w.verifyResp sig RESOURCE).1.valid = false) :
    (handler env w req).1 = send402Response env RESOURCE
    ∧ (∀ (w2 : World) (req2 : Request), req2.method = "GET" → queryOf req2 ≠ "" →
        extractPaymentSignature req2 = none →
        (handler env w2 req2).1 = (handler env w req).1) := by
  have h1 : (handler env w req).1 = send402Response env RESOURCE := by
    simp [handler, hm, hq, hx, hv]
  refine ⟨h1, fun w2 req2 hm2 hq2 hx2 => ?_⟩
  rw [h1]
  simp [handler, hm2, hq2, hx2]

/-- C2 witness: a token the facilitator rejects as expired yields exactly
the unpaid-path 402 challenge response. -/
theorem c2_invalid_token_fresh_challenge_witness :
    extractPaymentSignature reqX = some "tok"
    ∧ (verifyPayment envX wVerifyInvalid.decode wVerifyInvalid.verifyResp "tok" RESOURCE).1.valid
        = false
    ∧ (handler envX wVerifyInvalid reqX).1 = send402Response envX RESOURCE := by
  refine ⟨by decide, by decide, ?_⟩
  exact (c2_invalid_token_fresh_challenge envX wVerifyInvalid reqX "tok" rfl (by decide)
    (by decide) (by decide)).1

/-- C3 counterexample: with a facilitator settle response
`{success: false, transaction: "0xT1", payer: "0xABC"}` the settlement has
failed, yet the 200 body still carries the `payment` sub-object — the
claim that the payment sub-object is omitted whenever settlement fails is
false on the code, which keys the sub-object on the presence of a
transaction id, not on settlement success. -/
theorem c3_settlement_failure_counterexample :
    (settlePayment envX wSettleFailTx.decode wSettleFailTx.settleResp "tok" RESOURCE).1.success
        = false
    ∧ (handler envX wSettleFailTx reqX).1.status = 200
    ∧ (handler envX wSettleFailTx reqX).1.paymentField
        = some { transaction := "0xT1", payer := some "0xABC" } := by
  exact ⟨rfl, rfl, rfl⟩

/-- C3 (amended): if settlement fails after successful verification and
execution, the response is still 200 with the full result payload and no
PAYMENT-RESPONSE header; the payment sub-object is omitted whenever the
settlement result carries no (non-empty) transaction id — in particular
for every locally generated failure (unreachable, timeout, non-success
transport status); settlement failure never reverts to a challenge or
error state. -/
theorem c3_settlement_failure_still_200 (env : Env) (w : World) (req : Request) (sig : String)
    (hm : req.method = "GET") (hq : queryOf req ≠ "")
    (hx : extractPaymentSignature req = some sig)
    (hv : (verifyPayment env w.decode w.verifyResp sig RESOURCE).1.valid = true)
    (hs : (settlePayment env w.decode w.settleResp sig RESOURCE).1.success = false) :
    (handler env w req).1.status = 200
    ∧ (handler env w req).1.resultsOf
        = some (executeSearch env w.parse w.searchFetch (queryOf req)).results
    ∧ (handler env w req).1.hasHeader "PAYMENT-RESPONSE" = false
    ∧ (((settlePayment env w.decode w.settleResp sig RESOURCE).1.transaction = none
        ∨ (settlePayment env w.decode w.settleResp sig RESOURCE).1.transaction = some "")
       → (handler env w req).1.paymentField = none) := by
  refine ⟨?_, ?_, ?_, ?_⟩
  · simp [handler, hm, hq, hx, hv]
  · simp [handler, hm, hq, hx, hv, Response.resultsOf]
  · simp [handler, hm, hq, hx, hv, hs, Response.hasHeader]
  · intro ht
    rcases ht with ht | ht <;>
      simp [handler, hm, hq, hx, hv, ht, Response.paymentField]

/-- C3 witness: an unreachable facilitator at settle time still yields a
200 with results, no PAYMENT-RESPONSE header and no payment field. -/
theorem c3_settlement_failure_still_200_witness :
    (settlePayment envX wSettleUnreachable.decode wSettleUnreachable.settleResp "tok"
        RESOURCE).1.success = false
    ∧ (handler envX wSettleUnreachable reqX).1.status = 200
    ∧ (handler envX wSettleUnreachable reqX).1.hasHeader "PAYMENT-RESPONSE" = false
    ∧ (handler envX wSettleUnreachable reqX).1.paymentField = none := by
  have h := c3_settlement_failure_still_200 envX wSettleUnreachable reqX "tok" rfl (by decide)
    (by decide) (by decide) (by decide)
  exact ⟨by decide, h.1, h.2.2.1, h.2.2.2 (Or.inl (by decide))⟩

/-- C4: a GET request with a valid query but lacking both payment header
names gets the 402 challenge response — challenge body, base64 copy in
PAYMENT-REQUIRED, WWW-Authenticate naming the facilitator — and no
facilitator call is made. -/
theorem c4_no_token_challenge_no_network (env : Env) (w : World) (req : Request)
    (hm : req.method = "GET") (hq : queryOf req ≠ "")
    (h1 : getHeader req "payment-signature" = none)
    (h2 : getHeader req "x-payment" = none) :
    handler env w req = (send402Response env RESOURCE, [])
    ∧ (handler env w req).1.status = 402
    ∧ (handler env w req).1.headers
        = [("PAYMENT-REQUIRED",
            base64Encode (stringifyPaymentRequired (buildPaymentRequired env RESOURCE))),
           ("WWW-Authenticate", "x402 facilitator=\"" ++ FACILITATOR_URL env ++ "\"")]
    ∧ (handler env w req).1.body
        = ResponseBody.challenge
            { buildPaymentRequired env RESOURCE with
              error := some
                "Payment required. Include PAYMENT-SIGNATURE header with a valid x402 payment." } := by
  have hx : extractPaymentSignature req = none := extract_none_of_absent h1 h2
  have h : handler env w req = (send402Response env RESOURCE, []) := by
    simp [handler, hm, hq, hx]
  rw [h]
  exact ⟨rfl, rfl, rfl, rfl⟩

/-- C4 witness: the unpaid request fixture takes the challenge path. -/
theorem c4_no_token_challenge_no_network_witness :
    getHeader reqNoTok "payment-signature" = none
    ∧ getHeader reqNoTok "x-payment" = none
    ∧ handler envX wVerifyInvalid reqNoTok = (send402Response envX RESOURCE, []) := by
  exact ⟨rfl, rfl,
    (c4_no_token_challenge_no_network envX wVerifyInvalid reqNoTok rfl (by decide) rfl rfl).1⟩

/-- C5: every requirement sent to the facilitator by verify or settle is
the single requirement of the challenge for the same resource path —
byte-identical under serialization — with amount the process-lifetime
price constant and asset the configuration-derived asset address. -/
theorem c5_requirements_byte_identical (env : Env) (decode : String → Option String)
    (fr : VerifyResp) (sr : SettleResp) (sig resource : String) (c : FacCall)
    (h : c ∈ (verifyPayment env decode fr sig resource).2
       ∨ c ∈ (settlePayment env decode sr sig resource).2) :
    (buildPaymentRequired env resource).accepts = [c.paymentRequirements]
    ∧ stringifyRequirement c.paymentRequirements
        = stringifyRequirement (acceptsHead (buildPaymentRequired env resource))
    ∧ c.paymentRequirements.amount = PRICE_UNITS
    ∧ c.paymentRequirements.asset = ASSET_ADDRESS env := by
  have hreq : c.paymentRequirements = acceptsHead (buildPaymentRequired env resource) := by
    cases hd : decode sig with
    | none =>
      rcases h with h | h
      · rw [show (verifyPayment env decode fr sig resource).2 = [] by
          unfold verifyPayment; rw [hd]] at h
        simp at h
      · rw [show (settlePayment env decode sr sig resource).2 = [] by
          unfold settlePayment; rw [hd]] at h
        simp at h
    | some payload =>
      rcases h with h | h
      · rw [verifyPayment_calls_of_decode hd] at h
        simp at h
        subst h
        rfl
      · rw [settlePayment_calls_of_decode hd] at h
        simp at h
        subst h
        rfl
  rw [hreq]
  exact ⟨rfl, rfl, rfl, rfl⟩

/-- C5 witness: the concrete verify call carries exactly the challenge
requirement. -/
theorem c5_requirements_byte_identical_witness :
    vCall envX "payload" RESOURCE
        ∈ (verifyPayment envX (fun _ => some "payload") (.ok true none none) "tok" RESOURCE).2
    ∧ (buildPaymentRequired envX RESOURCE).accepts
        = [(vCall envX "payload" RESOURCE).paymentRequirements] := by
  refine ⟨by decide, ?_⟩
  exact (c5_requirements_byte_identical envX (fun _ => some "payload") (.ok true none none)
    (.ok { success := true }) "tok" RESOURCE (vCall envX "payload" RESOURCE)
    (Or.inl (by decide))).1

/-- C6: a token whose base64/JSON decode fails makes verify return an
invalid outcome and settle an unsuccessful outcome, both with no outbound
facilitator call. -/
theorem c6_decode_failure_no_network (env : Env) (decode : String → Option String)
    (fr : VerifyResp) (sr : SettleResp) (sig resource : String)
    (h : decode sig = none) :
    verifyPayment env decode fr sig resource
      = ({ valid := false, payer := none, error := some "Invalid payment signature encoding" }, [])
    ∧ settlePayment env decode sr sig resource
      = ({ success := false, transaction := none, payer := none, network := none,
           errorReason := some "Invalid payment signature encoding" }, []) := by
  constructor
  · unfold verifyPayment
    rw [h]
  · unfold settlePayment
    rw [h]

/-- C6 witness: a decode that always fails short-circuits both calls. -/
theorem c6_decode_failure_no_network_witness :
    (fun (_ : String) => (none : Option String)) "tok" = none
    ∧ verifyPayment envX (fun _ => none) (.ok true none none) "tok" RESOURCE
      = ({ valid := false, payer := none, error := some "Invalid payment signature encoding" }, []) := by
  exact ⟨rfl, (c6_decode_failure_no_network envX (fun _ => none) (.ok true none none)
    (.ok { success := true }) "tok" RESOURCE rfl).1⟩

/-- C7: the challenge builder is a total pure function producing exactly
one requirement with scheme "exact", the integer-string price "2000", and
the EIP-712 signing-domain metadata in `extra`; with no configuration set
every field takes its documented default. -/
theorem c7_challenge_builder_shape (env : Env) (resource : String) :
    (buildPaymentRequired env resource).accepts.length = 1
    ∧ (acceptsHead (buildPaymentRequired env resource)).scheme = "exact"
    ∧ (acceptsHead (buildPaymentRequired env resource)).amount = PRICE_UNITS
    ∧ PRICE_UNITS.toList.all Char.isDigit = true
    ∧ (acceptsHead (buildPaymentRequired env resource)).extra
        = [("name", "USD Coin"), ("version", "2")]
    ∧ buildPaymentRequired ({} : Env) resource
      = { x402Version := 2,
          resource := { url := resource,
                        description := some "Micropaid web search — $0.002 per query",
                        mimeType := some "application/json" },
          accepts := [{ scheme := "exact", network := "eip155:84532", amount := "2000",
                        asset := "0x036CbD53842c5426634e7929541eC2318f3dCF7e", payTo := "",
                        maxTimeoutSeconds := 60,
                        extra := [("name", "USD Coin"), ("version", "2")] }],
          error := none } := by
  exact ⟨rfl, rfl, rfl, rfl, rfl, rfl⟩

/-- C8: with the live strategy selected, any failure of the DuckDuckGo
search (fetch error, timeout, non-ok status — all of which make
`searchDuckDuckGo` fail — or zero parsed results) makes `executeSearch`
return the deterministic stub results tagged "fallback_stub"; the stub
list is non-empty (always five results). -/
theorem c8_live_failure_falls_back (env : Env) (parse : String → List SearchResult)
    (f : FetchOutcome) (query : String)
    (hp : jsToLower (jsOr env.searchProvider "duckduckgo") ≠ "stub")
    (hf : (∃ msg, searchDuckDuckGo parse f = Except.error msg)
        ∨ searchDuckDuckGo parse f = Except.ok []) :
    executeSearch env parse f query
      = { results := stubResults query, search_mode := "fallback_stub" }
    ∧ stubResults query ≠ []
    ∧ (stubResults query).length = 5 := by
  refine ⟨?_, by simp [stubResults], rfl⟩
  rcases hf with ⟨msg, hmsg⟩ | hok
  · simp [executeSearch, hp, hmsg]
  · simp [executeSearch, hp, hok]

/-- C8 witness: a simulated network failure in default (live) mode falls
back to the stub results for the same query. -/
theorem c8_live_failure_falls_back_witness :
    jsToLower (jsOr envX.searchProvider "duckduckgo") ≠ "stub"
    ∧ executeSearch envX (fun _ => []) (.fetchError "boom") "bitcoin"
      = { results := stubResults "bitcoin", search_mode := "fallback_stub" } := by
  refine ⟨by decide, ?_⟩
  exact (c8_live_failure_falls_back envX (fun _ => []) (.fetchError "boom") "bitcoin"
    (by decide) (Or.inl ⟨"boom", rfl⟩)).1

/-- C9: the signature extractor prefers the current-version header slot
and falls back to the legacy one; lookup is insensitive to header-name
case (it reads the Node-normalized table); an empty value counts as
absent; any returned value is a raw header value; absence yields `none`. -/
theorem c9_extractor_contract (req : Request) :
    (∀ req2 : Request, normalizeHeaders req.headers = normalizeHeaders req2.headers →
        extractPaymentSignature req = extractPaymentSignature req2)
    ∧ (∀ v, getHeader req "payment-signature" = some v → v ≠ "" →
        extractPaymentSignature req = some v)
    ∧ ((getHeader req "payment-signature" = none ∨ getHeader req "payment-signature" = some "") →
        ∀ v, getHeader req "x-payment" = some v → v ≠ "" →
        extractPaymentSignature req = some v)
    ∧ ((getHeader req "payment-signature" = none ∨ getHeader req "payment-signature" = some "") →
       (getHeader req "x-payment" = none ∨ getHeader req "x-payment" = some "") →
        extractPaymentSignature req = none)
    ∧ (∀ v, extractPaymentSignature req = some v →
        getHeader req "payment-signature" = some v ∨ getHeader req "x-payment" = some v) := by
  refine ⟨?_, ?_, ?_, ?_, ?_⟩
  · intro req2 h
    have g1 : getHeader req "payment-signature" = getHeader req2 "payment-signature" := by
      unfold getHeader
      rw [h]
    have g2 : getHeader req "x-payment" = getHeader req2 "x-payment" := by
      unfold getHeader
      rw [h]
    unfold extractPaymentSignature
    rw [g1, g2]
  · intro v hv hne
    have hlen : v.length > 0 := string_length_pos_of_ne hne
    simp [extractPaymentSignature, nonEmptyHeader, hv, hlen]
  · intro hps v hv hne
    have hlen : v.length > 0 := string_length_pos_of_ne hne
    rcases hps with hps | hps <;>
      simp [extractPaymentSignature, nonEmptyHeader, hps, hv, hlen]
  · intro hps hxp
    rcases hps with hps | hps <;> rcases hxp with hxp | hxp <;>
      simp [extractPaymentSignature, nonEmptyHeader, hps, hxp]
  · intro v hv
    unfold extractPaymentSignature at hv
    cases hps : getHeader req "payment-signature" with
    | some s =>
      rw [hps] at hv
      by_cases hs : s.length > 0
      · simp [nonEmptyHeader, hs] at hv
        exact Or.inl (by rw [hv])
      · simp [nonEmptyHeader, hs] at hv
        cases hxp : getHeader req "x-payment" with
        | some t =>
          rw [hxp] at hv
          by_cases ht : t.length > 0
          · simp [nonEmptyHeader, ht] at hv
            exact Or.inr (by rw [hv])
          · simp [nonEmptyHeader, ht] at hv
        | none =>
          rw [hxp] at hv
          simp [nonEmptyHeader] at hv
    | none =>
      rw [hps] at hv
      simp [nonEmptyHeader] at hv
      cases hxp : getHeader req "x-payment" with
      | some t =>
        rw [hxp] at hv
        by_cases ht : t.length > 0
        · simp [nonEmptyHeader, ht] at hv
          exact Or.inr (by rw [hv])
        · simp [nonEmptyHeader, ht] at hv
      | none =>
        rw [hxp] at hv
        simp [nonEmptyHeader] at hv

/-- C9 witness: a header sent with uppercase name is found and its raw
value returned. -/
theorem c9_extractor_contract_witness :
    getHeader { method := "GET", q := none,
                headers := [("PAYMENT-SIGNATURE", "tok")] } "payment-signature" = some "tok"
    ∧ extractPaymentSignature
        { method := "GET", q := none, headers := [("PAYMENT-SIGNATURE", "tok")] } = some "tok" := by
  refine ⟨by decide, ?_⟩
  exact (c9_extractor_contract
    { method := "GET", q := none, headers := [("PAYMENT-SIGNATURE", "tok")] }).2.1 "tok"
    (by decide) (by decide)

/-- C10: a non-GET request is answered 405 with the method-not-allowed
body before anything else happens: no facilitator or search effect occurs
and neither query validation nor payment processing is reached. -/
theorem c10_non_get_405 (env : Env) (w : World) (req : Request)
    (h : req.method ≠ "GET") :
    handler env w req
      = ({ status := 405, headers := [], body := .errorMsg "Method not allowed" }, []) := by
  simp [handler, h]

/-- C10 witness: a POST request gets the 405 response and no effects. -/
theorem c10_non_get_405_witness :
    handler envX wVerifyInvalid reqPost
      = ({ status := 405, headers := [], body := .errorMsg "Method not allowed" }, []) := by
  exact c10_non_get_405 envX wVerifyInvalid reqPost (by decide)

end MicroSearch
